import Mathlib

/-!
Shallow embedding of `chip.plugin.c`, a netdata external plugin that polls an
AXP209 power-management IC over an I2C bus and emits chart data on stdout.

Modelling conventions:
* Machine integers are `Nat` (or `Int` for C `int`) with explicit `% 2^w`
  truncation wherever the C code converts between widths or can wrap.
* The I2C bus is modelled as a pure map `regs : Nat → Nat` from register
  address to the byte the device answers; `read_register_value` reduces the
  answer `% 256` because the C code receives it in a `uint8_t` buffer.
  Transport failures (fatal `exit(1)` paths in the C code) are outside the
  modelled state space.
* C `float`/`double` arithmetic is idealised as exact rational arithmetic
  over `ℚ`.  No theorem below depends on binary floating-point rounding.
* The C `value_t` union is modelled as a tagged sum.  Reading a union member
  other than the one last stored is a byte-level reinterpretation in C; the
  model makes `format_data_value` return `none` in that case instead of
  modelling the reinterpreted bytes.
* `printf` output is modelled as a list of structured `Line` values, and
  `sprintf` with a `%.Nf` format is modelled by the exact fixed-point
  renderer `formatFixed` (the `DataFormat` strings `"%.1f"`, `"%.3f"` of the
  C table are represented by the `FracDigits` field, 0 for the integer
  formats `PRIu8`/`PRIu16`).
* The monotonic clock is a map `clock : Nat → Nat` giving successive
  microsecond readings: cycle `i` of the main loop performs readings
  `clock (2*i)` (cycle start) and `clock (2*i+1)` (cycle end).
-/

/-- The `enum DataType` of the plugin. -/
inductive DataType
  | Float
  | Uint8
  | Uint16

deriving instance DecidableEq for DataType

/-- The `value_t` union, as a tagged sum (see the module comment). -/
inductive value_t
  | asFloat (x : ℚ)
  | asUint8 (x : Nat)
  | asUint16 (x : Nat)

deriving instance DecidableEq for value_t

/-- The `enum Dimensions` indices, in declaration order. -/
abbrev internaltemp : Nat := 0
abbrev batlevel : Nat := 1
abbrev chargelimit : Nat := 2
abbrev chargeterm : Nat := 3
abbrev batcharge : Nat := 4
abbrev batdischarge : Nat := 5
abbrev batvoltage : Nat := 6
abbrev acinvoltage : Nat := 7
abbrev acincurrent : Nat := 8
abbrev vbusvoltage : Nat := 9
abbrev vbusvoltagelimit : Nat := 10
abbrev vbuscurrent : Nat := 11
abbrev vbuscurrentlimit : Nat := 12
abbrev MaxDimensions : Nat := 13
abbrev EMPTY_DIM : Nat := MaxDimensions

/-- One row of the `gDimensionDefinitions` table. -/
structure DimensionDefinition where
  Name : String
  DataType : DataType
  FracDigits : Nat
  Properties : String

deriving instance DecidableEq for DimensionDefinition

def dimDefault : DimensionDefinition := ⟨"", DataType.Uint16, 0, ""⟩

/-- The `gDimensionDefinitions` table of the plugin, row for row. -/
def gDimensionDefinitions : List DimensionDefinition :=
  [ ⟨"internaltemp",     DataType.Float,  1, "\"Internal Temp\" absolute"⟩,
    ⟨"batlevel",         DataType.Uint8,  0, "\"Charge\" absolute"⟩,
    ⟨"chargelimit",      DataType.Uint16, 0, "\"Charge Limit\" absolute"⟩,
    ⟨"chargeterm",       DataType.Uint16, 0, "\"Charge Termination Limit\" absolute"⟩,
    ⟨"batcharge",        DataType.Float,  1, "\"Batt Charge\" absolute"⟩,
    ⟨"batdischarge",     DataType.Uint16, 0, "\"Batt Discharge\" absolute"⟩,
    ⟨"batvoltage",       DataType.Float,  1, "\"Voltage\" absolute"⟩,
    ⟨"acinvoltage",      DataType.Float,  1, "\"Voltage\" absolute"⟩,
    ⟨"acincurrent",      DataType.Float,  3, "\"Current\" absolute"⟩,
    ⟨"vbusvoltage",      DataType.Float,  1, "\"Voltage\" absolute"⟩,
    ⟨"vbusvoltagelimit", DataType.Uint16, 0, "\"Limit\" absolute"⟩,
    ⟨"vbuscurrent",      DataType.Float,  3, "\"Current\" absolute"⟩,
    ⟨"vbuscurrentlimit", DataType.Uint16, 0, "\"Limit\" absolute"⟩ ]

/-- One row of the `gChartDefinitions` table; `Dimensions` always has the four
slots of the C array, with `EMPTY_DIM` marking unused slots. -/
structure ChartDefinition where
  Name : String
  Properties : String
  Dimensions : List Nat

deriving instance DecidableEq for ChartDefinition

def chartDefault : ChartDefinition := ⟨"", "", []⟩

/-- The `gChartDefinitions` table of the plugin, row for row. -/
def gChartDefinitions : List ChartDefinition :=
  [ ⟨"Chip.temps", "\"\" \"Temperature\" \"Degrees (F)\"", [internaltemp, EMPTY_DIM, EMPTY_DIM, EMPTY_DIM]⟩,
    ⟨"Chip.batterylevel", "\"\" \"Battery Level\" \"%\"", [batlevel, EMPTY_DIM, EMPTY_DIM, EMPTY_DIM]⟩,
    ⟨"Chip.batterycurrent", "\"\" \"Battery Current\" \"mA\"", [chargelimit, chargeterm, batcharge, batdischarge]⟩,
    ⟨"Chip.batteryvoltage", "\"\" \"Battery Voltage\" \"mV\"", [batvoltage, EMPTY_DIM, EMPTY_DIM, EMPTY_DIM]⟩,
    ⟨"Chip.acinvoltage", "\"\" \"ACIN Voltage\" \"mV\"", [acinvoltage, EMPTY_DIM, EMPTY_DIM, EMPTY_DIM]⟩,
    ⟨"Chip.acincurrent", "\"\" \"ACIN Current\" \"mA\"", [acincurrent, EMPTY_DIM, EMPTY_DIM, EMPTY_DIM]⟩,
    ⟨"Chip.vbusvoltage", "\"\" \"VBUS Voltage\" \"mV\"", [vbusvoltage, vbusvoltagelimit, EMPTY_DIM, EMPTY_DIM]⟩,
    ⟨"Chip.vbuscurrent", "\"\" \"VBUS Current\" \"mA\"", [vbuscurrent, vbuscurrentlimit, EMPTY_DIM, EMPTY_DIM]⟩ ]

def NUM_CHARTS : Nat := gChartDefinitions.length

/-- The mutable globals `gData` and `gIsValid` (a `uint32_t` bitmask). -/
structure State where
  gData : Nat → value_t
  gIsValid : Nat

/-- All globals are zero-initialised at process start; the zero bytes of the
union read as 0 through every member, rendered here with an arbitrary tag
(nothing ever reads a sample whose validity bit is unset). -/
def initState : State := ⟨fun _ => value_t.asUint16 0, 0⟩

def save_data_float (index : Nat) (value : ℚ) (s : State) : State :=
  ⟨fun i => if i = index then value_t.asFloat value else s.gData i,
   s.gIsValid ||| (1 <<< index)⟩

/-- The `uint8_t value` parameter truncates the argument `% 256`. -/
def save_data_uint8 (index : Nat) (value : Nat) (s : State) : State :=
  ⟨fun i => if i = index then value_t.asUint8 (value % 256) else s.gData i,
   s.gIsValid ||| (1 <<< index)⟩

/-- The `uint16_t value` parameter truncates the argument `% 65536`. -/
def save_data_uint16 (index : Nat) (value : Nat) (s : State) : State :=
  ⟨fun i => if i = index then value_t.asUint16 (value % 65536) else s.gData i,
   s.gIsValid ||| (1 <<< index)⟩

/-- Spec-side projection of one Sample: `some` value when the validity bit of
`gIsValid` is set, `none` otherwise. -/
def getSample (s : State) (index : Nat) : Option value_t :=
  if s.gIsValid &&& (1 <<< index) = 0 then none else some (s.gData index)

def padZeros (w : Nat) (s : String) : String :=
  String.mk (List.replicate (w - s.length) '0') ++ s

/-- Exact fixed-point rendering of a rational with `prec` fractional digits,
modelling `sprintf` with a `%.<prec>f` format (round to nearest). -/
def formatFixed (prec : Nat) (q : ℚ) : String :=
  let scaled : Int := round (q * (10 : ℚ) ^ prec)
  let sign := if scaled < 0 then "-" else ""
  let m := scaled.natAbs
  if prec = 0 then sign ++ toString m
  else sign ++ toString (m / 10 ^ prec) ++ "." ++ padZeros prec (toString (m % 10 ^ prec))

/-- `format_data_value`: empty string for an invalid sample, otherwise the
value rendered by the `DataFormat` of its dimension.  When the stored union
member differs from the one the declared `DataType` reads, the C code
reinterprets the stored bytes; the model returns `none` there. -/
def format_data_value (index : Nat) (s : State) : Option String :=
  if s.gIsValid &&& (1 <<< index) = 0 then some ""
  else
    match (gDimensionDefinitions.getD index dimDefault).DataType, s.gData index with
    | DataType.Float, value_t.asFloat x =>
        some (formatFixed (gDimensionDefinitions.getD index dimDefault).FracDigits x)
    | DataType.Uint8, value_t.asUint8 x => some (toString x)
    | DataType.Uint16, value_t.asUint16 x => some (toString x)
    | _, _ => none

/-- `read_register_value`: one byte answered by the device for `address`. -/
def read_register_value (regs : Nat → Nat) (address : Nat) : Nat :=
  regs address % 256

/-- `read_multi_value`: 12-bit reassembly `(high << 4) | (low & 0xF)`,
returned as `uint16_t`. -/
def read_multi_value (regs : Nat → Nat) (highaddress lowaddress : Nat) : Nat :=
  let highvalue := read_register_value regs highaddress
  let lowvalue := read_register_value regs lowaddress
  ((highvalue <<< 4) ||| (lowvalue &&& 0xF)) % 65536

/-- `gather_chart_data`: `memset(gData, 0, sizeof(gData)); gIsValid = 0;`
discards the prior cycle samples entirely (the `prior` argument is the global
state left by the previous cycle, which the function never consults), then
decodes the registers of the current snapshot. -/
def gather_chart_data (regs : Nat → Nat) (prior : State) : State :=
  let s0 : State := ⟨fun _ => value_t.asUint16 0, 0⟩
  let power_status := read_register_value regs 0x01
  let charge_ctl := read_register_value regs 0x33
  let temp : ℚ := (read_multi_value regs 0x5E 0x5F : ℚ) * (18 / 100) - 22846 / 100
  let s1 := save_data_float internaltemp temp s0
  let s2 :=
    if charge_ctl &&& 0x80 ≠ 0 then
      let charge_current_limit := ((charge_ctl &&& 0xF) * 100 + 300) % 65536
      let sa := save_data_uint16 chargelimit charge_current_limit s1
      let t0 := charge_current_limit / 10
      let t1 := if charge_ctl &&& 0x10 ≠ 0 then (t0 + (t0 >>> 1)) % 65536 else t0
      save_data_uint16 chargeterm t1 sa
    else s1
  let s3 :=
    if power_status &&& 0x20 ≠ 0 then
      let sa := save_data_float batcharge ((read_multi_value regs 0x7A 0x7B : ℚ) / 2) s2
      let sb := save_data_uint16 batdischarge
        ((read_register_value regs 0x7C <<< 5) ||| (read_register_value regs 0x7D &&& 0x1F)) sa
      let sc := save_data_uint8 batlevel (read_register_value regs 0xB9 &&& 0x7F) sb
      save_data_float batvoltage ((read_multi_value regs 0x78 0x79 : ℚ) * (11 / 10)) sc
    else s2
  let s4 :=
    if power_status &&& 0x80 ≠ 0 then
      let sa := save_data_float acinvoltage ((read_multi_value regs 0x56 0x57 : ℚ) * (17 / 10)) s3
      save_data_float acincurrent ((read_multi_value regs 0x58 0x59 : ℚ) * (5 / 8)) sa
    else s3
  let s5 :=
    if power_status &&& 0x20 ≠ 0 then
      let sa := save_data_float vbusvoltage ((read_multi_value regs 0x5A 0x5B : ℚ) * (17 / 10)) s4
      save_data_float vbuscurrent ((read_multi_value regs 0x5C 0x5D : ℚ) * (3 / 8)) sa
    else s4
  let vbus_ipsout := read_register_value regs 0x30
  let s6 :=
    if vbus_ipsout &&& 0x40 ≠ 0 then
      save_data_float vbusvoltagelimit (((vbus_ipsout >>> 3) * 100 + 4000 : Nat) : ℚ) s5
    else s5
  if vbus_ipsout &&& 0x3 < 3 then
    save_data_uint16 vbuscurrentlimit ([900, 500, 100].getD (vbus_ipsout &&& 0x3) 0) s6
  else s6

/-- One line of the stdout wire protocol. -/
inductive Line
  | CHART (name props : String)
  | DIMENSION (name props : String)
  | BEGIN (chart : String) (delayus : Option Nat)
  | SET (dim : String) (value : Option String)
  | END

deriving instance DecidableEq for Line

/-- Keyword and leading identifier of a protocol line (drops the payload). -/
def lineHead : Line → String × String
  | Line.CHART name _ => ("CHART", name)
  | Line.DIMENSION name _ => ("DIMENSION", name)
  | Line.BEGIN chart _ => ("BEGIN", chart)
  | Line.SET dim _ => ("SET", dim)
  | Line.END => ("END", "")

/-- `print_charts_preamble`: one CHART line per chart, each followed by the
DIMENSION lines of its non-empty slots, in table order. -/
def print_charts_preamble : List Line :=
  (List.range NUM_CHARTS).flatMap fun chartindex =>
    let c := gChartDefinitions.getD chartindex chartDefault
    Line.CHART c.Name c.Properties ::
      c.Dimensions.filterMap fun targetindex =>
        if targetindex ≠ EMPTY_DIM then
          some (Line.DIMENSION (gDimensionDefinitions.getD targetindex dimDefault).Name
                  (gDimensionDefinitions.getD targetindex dimDefault).Properties)
        else none

/-- `print_chart_data`: per chart a BEGIN line (carrying `delayus` only when
it is nonzero), the SET lines of its non-empty slots, and an END line. -/
def print_chart_data (delayus : Nat) (s : State) : List Line :=
  (List.range NUM_CHARTS).flatMap fun chartindex =>
    let c := gChartDefinitions.getD chartindex chartDefault
    Line.BEGIN c.Name (if delayus ≠ 0 then some delayus else none) ::
      (c.Dimensions.filterMap fun targetindex =>
        if targetindex ≠ EMPTY_DIM then
          some (Line.SET (gDimensionDefinitions.getD targetindex dimDefault).Name
                  (format_data_value targetindex s))
        else none) ++ [Line.END]

/-- Expected keyword/name skeleton of the preamble, read off the chart table. -/
def catalogPreambleShape : List (String × String) :=
  gChartDefinitions.flatMap fun c =>
    ("CHART", c.Name) ::
      c.Dimensions.filterMap fun t =>
        if t ≠ EMPTY_DIM then some ("DIMENSION", (gDimensionDefinitions.getD t dimDefault).Name)
        else none

/-- Expected keyword/name skeleton of one value frame, read off the chart
table. -/
def catalogFrameShape : List (String × String) :=
  gChartDefinitions.flatMap fun c =>
    ("BEGIN", c.Name) ::
      (c.Dimensions.filterMap fun t =>
        if t ≠ EMPTY_DIM then some ("SET", (gDimensionDefinitions.getD t dimDefault).Name)
        else none) ++ [("END", "")]

/-- The elapsed-time hints carried by the BEGIN lines of an output fragment. -/
def beginDelays (ls : List Line) : List (Option Nat) :=
  ls.filterMap fun l =>
    match l with
    | Line.BEGIN _ d => some d
    | _ => none

/-- Wrapping subtraction of `uint64_t` values (18446744073709551616 = 2^64). -/
def u64sub (a b : Nat) : Nat :=
  (18446744073709551616 + a % 18446744073709551616 - b % 18446744073709551616) %
    18446744073709551616

/-- The loop-carried state of `main`: the sample globals, `endtimeus`, the
stdout trace so far, and the successive `usleep` arguments (as the `uint64_t`
value of the argument expression, before the narrowing to `useconds_t`). -/
structure LoopState where
  store : State
  endtimeus : Nat
  output : List Line
  sleeps : List Nat

/-- One iteration of the `while (true)` loop of `main`. -/
def main_iteration (update : Nat) (regs : Nat → Nat) (startclock endclock : Nat)
    (st : LoopState) : LoopState :=
  let starttimeus := startclock % 18446744073709551616
  let delta := if st.endtimeus ≠ 0 then u64sub starttimeus st.endtimeus else 0
  let store := gather_chart_data regs st.store
  let frame := print_chart_data delta store
  let endtimeus := endclock % 18446744073709551616
  let sleeparg := u64sub ((update * 1000000) % 18446744073709551616) (u64sub endtimeus starttimeus)
  ⟨store, endtimeus, st.output ++ frame, st.sleeps ++ [sleeparg]⟩

/-- State right after `main` printed the preamble: `endtimeus = 0`. -/
def init_loop_state : LoopState := ⟨initState, 0, print_charts_preamble, []⟩

/-- The loop of `main` after `n` iterations; `regs i` is the register snapshot
cycle `i` reads, `clock k` the `k`-th monotonic-clock reading in µs. -/
def run (update : Nat) (regs : Nat → Nat → Nat) (clock : Nat → Nat) : Nat → LoopState
  | 0 => init_loop_state
  | n + 1 => main_iteration update (regs n) (clock (2 * n)) (clock (2 * n + 1)) (run update regs clock n)

/-- Closed form of the `k`-th cycle-start timestamp. -/
def cycleStart (clock : Nat → Nat) (i : Nat) : Nat := clock (2 * i) % 18446744073709551616

/-- Closed form of the `k`-th cycle-end timestamp. -/
def cycleEnd (clock : Nat → Nat) (i : Nat) : Nat := clock (2 * i + 1) % 18446744073709551616

/-- Closed form of the elapsed-time hint passed to `print_chart_data` in
cycle `i`. -/
def hintAt (clock : Nat → Nat) (i : Nat) : Nat :=
  if i = 0 then 0
  else if cycleEnd clock (i - 1) = 0 then 0
  else u64sub (cycleStart clock i) (cycleEnd clock (i - 1))

/-- Closed form of the frame emitted by cycle `i`. -/
def frameAt (regs : Nat → Nat → Nat) (clock : Nat → Nat) (i : Nat) : List Line :=
  print_chart_data (hintAt clock i) (gather_chart_data (regs i) initState)

/-- Closed form of the `usleep` argument computed at the end of cycle `i`. -/
def sleepAt (update : Nat) (clock : Nat → Nat) (i : Nat) : Nat :=
  u64sub ((update * 1000000) % 18446744073709551616) (u64sub (cycleEnd clock i) (cycleStart clock i))

/-- Digit-prefix accumulator of the C library `atoi`. -/
def atoiDigits : List Char → Nat → Nat
  | [], acc => acc
  | c :: cs, acc => if c.isDigit then atoiDigits cs (acc * 10 + (c.toNat - 48)) else acc

/-- The C locale `isspace` set. -/
def c_isspace (c : Char) : Bool :=
  c == ' ' || c == '\t' || c == '\n' || c == Char.ofNat 11 || c == Char.ofNat 12 || c == '\r'

/-- The C library `atoi`: optional whitespace, optional sign, maximal digit
prefix; 0 when no digits follow.  (The C function has undefined behaviour
when the value overflows `int`; no theorem below evaluates it there.) -/
def atoi (s : String) : Int :=
  match s.data.dropWhile c_isspace with
  | '-' :: rest => -(atoiDigits rest 0 : Int)
  | '+' :: rest => (atoiDigits rest 0 : Int)
  | rest => (atoiDigits rest 0 : Int)

/-- Argument handling at the top of `main`: `gUpdateEvery = atoi(argv[1])`
narrows the `int` to `uint16_t` (reduction mod 65536) before the range check;
`none` is the usage-message-and-exit-1 path, taken before any bus or stdout
activity. -/
def parse_args (args : List String) : Option Nat :=
  match args with
  | [] => some 1
  | s :: _ =>
      let gUpdateEvery := ((atoi s).emod 65536).toNat
      if gUpdateEvery < 1 || gUpdateEvery > 360 then none else some gUpdateEvery

/-- `main` with a successfully acquired bus: `none` when the arguments are
rejected (exit 1 before the preamble), otherwise the loop state after `n`
cycles. -/
def main_run (args : List String) (regs : Nat → Nat → Nat) (clock : Nat → Nat)
    (n : Nat) : Option LoopState :=
  (parse_args args).map fun u => run u regs clock n

/-- Register snapshots that always answer 0. -/
def regsZero : Nat → Nat → Nat := fun _ _ => 0

/-- Clock trace of a first cycle lasting 1000001 µs (start 5, end 1000006). -/
def clockC2 : Nat → Nat := fun k => [5, 1000006].getD k 0

/-- Clock trace with cycle 0 spanning 100..150 and cycle 1 spanning 200..260. -/
def clockC3 : Nat → Nat := fun k => [100, 150, 200, 260].getD k 300

/-- A positive, monotone, bounded clock trace. -/
def clockW : Nat → Nat := fun k => min (k + 1) 1000

/-- Register snapshot with only bit 0x40 of register 0x30 set. -/
def regsC1 : Nat → Nat := fun a => if a = 0x30 then 0x40 else 0

/-- Register snapshot with charge-control register 0x33 = 0x8F. -/
def regsC6 : Nat → Nat := fun a => if a = 0x33 then 0x8F else 0

/-- Register snapshot with charge-control register 0x33 = 0x9F. -/
def regsC6b : Nat → Nat := fun a => if a = 0x33 then 0x9F else 0

/-! ## Helper lemmas -/

lemma one_shiftLeft_eq (i : Nat) : 1 <<< i = 2 ^ i := by
  rw [Nat.shiftLeft_eq, one_mul]

lemma and_bit_eq_zero_iff (a i : Nat) : a &&& (1 <<< i) = 0 ↔ a.testBit i = false := by
  rw [one_shiftLeft_eq, Nat.and_two_pow]
  cases h : a.testBit i <;> simp [h, Nat.pow_eq_zero]

lemma valid_or_bit (a i j : Nat) :
    (a ||| (1 <<< j)) &&& (1 <<< i) = 0 ↔ (i ≠ j ∧ a &&& (1 <<< i) = 0) := by
  simp only [and_bit_eq_zero_iff, Nat.testBit_lor]
  rcases eq_or_ne i j with h | h
  · subst h; simp [one_shiftLeft_eq, Nat.testBit_two_pow_self]
  · simp [h, one_shiftLeft_eq, Nat.testBit_two_pow_of_ne (Ne.symm h)]

lemma getSample_save_data_float (j : Nat) (v : ℚ) (s : State) (i : Nat) :
    getSample (save_data_float j v s) i =
      if i = j then some (value_t.asFloat v) else getSample s i := by
  rcases eq_or_ne i j with h | h
  · subst h; simp [getSample, save_data_float, valid_or_bit]
  · simp [getSample, save_data_float, valid_or_bit, h]

lemma getSample_save_data_uint8 (j : Nat) (v : Nat) (s : State) (i : Nat) :
    getSample (save_data_uint8 j v s) i =
      if i = j then some (value_t.asUint8 (v % 256)) else getSample s i := by
  rcases eq_or_ne i j with h | h
  · subst h; simp [getSample, save_data_uint8, valid_or_bit]
  · simp [getSample, save_data_uint8, valid_or_bit, h]

lemma getSample_save_data_uint16 (j : Nat) (v : Nat) (s : State) (i : Nat) :
    getSample (save_data_uint16 j v s) i =
      if i = j then some (value_t.asUint16 (v % 65536)) else getSample s i := by
  rcases eq_or_ne i j with h | h
  · subst h; simp [getSample, save_data_uint16, valid_or_bit]
  · simp [getSample, save_data_uint16, valid_or_bit, h]

lemma gather_prior_irrelevant (regs : Nat → Nat) (p q : State) :
    gather_chart_data regs p = gather_chart_data regs q := rfl

lemma getSample_ite (c : Prop) [Decidable c] (a b : State) (i : Nat) :
    getSample (if c then a else b) i = if c then getSample a i else getSample b i := by
  split_ifs <;> rfl

lemma getSample_zero_mask (f : Nat → value_t) (i : Nat) :
    getSample ⟨f, 0⟩ i = none := by
  simp [getSample]


lemma append_ne_empty_right (a b : String) (h : b ≠ "") : a ++ b ≠ "" := by
  cases a with
  | mk la =>
    cases b with
    | mk lb =>
      intro hc
      apply h
      have hdata : la ++ lb = [] := congrArg String.data hc
      exact congrArg String.mk (List.append_eq_nil.mp hdata).2

lemma append_ne_empty_left (a b : String) (h : a ≠ "") : a ++ b ≠ "" := by
  cases a with
  | mk la =>
    cases b with
    | mk lb =>
      intro hc
      apply h
      have hdata : la ++ lb = [] := congrArg String.data hc
      exact congrArg String.mk (List.append_eq_nil.mp hdata).1

lemma formatFixed_ne_empty (prec : Nat) (q : ℚ) (h : prec ≠ 0) :
    formatFixed prec q ≠ "" := by
  simp only [formatFixed, h, if_false]
  exact append_ne_empty_left _ _ (append_ne_empty_right _ _ (by decide))

lemma set_internaltemp_mem (d : Nat) (s : State) :
    Line.SET "internaltemp" (format_data_value internaltemp s) ∈ print_chart_data d s := by
  unfold print_chart_data
  refine List.mem_flatMap.mpr ⟨0, by decide, ?_⟩
  exact List.mem_cons_of_mem _ (List.mem_cons_self _ _)


lemma print_chart_data_shape (d : Nat) (s : State) :
    (print_chart_data d s).map lineHead = catalogFrameShape := rfl

lemma print_charts_preamble_shape :
    print_charts_preamble.map lineHead = catalogPreambleShape := rfl

lemma beginDelays_print_chart_data (d : Nat) (s : State) :
    beginDelays (print_chart_data d s)
      = List.replicate 8 (if d ≠ 0 then some d else none) := rfl

lemma run_spec (u : Nat) (regs : Nat → Nat → Nat) (clock : Nat → Nat) (n : Nat) :
    (run u regs clock n).output
        = print_charts_preamble ++ ((List.range n).map (frameAt regs clock)).join
    ∧ (run u regs clock n).endtimeus = (if n = 0 then 0 else cycleEnd clock (n - 1))
    ∧ (run u regs clock n).sleeps = (List.range n).map (sleepAt u clock) := by
  induction n with
  | zero => exact ⟨rfl, rfl, rfl⟩
  | succ m ih =>
    obtain ⟨ho, he, hs⟩ := ih
    have hdelta :
        (if (run u regs clock m).endtimeus ≠ 0
          then u64sub (clock (2 * m) % 18446744073709551616) (run u regs clock m).endtimeus
          else 0) = hintAt clock m := by
      rw [he]
      rcases Nat.eq_zero_or_pos m with hm | hm
      · subst hm; simp [hintAt]
      · have hm0 : m ≠ 0 := Nat.pos_iff_ne_zero.mp hm
        simp only [hm0, if_false, hintAt, cycleStart]
        by_cases hz : cycleEnd clock (m - 1) = 0
        · simp [hz]
        · simp [hz]
    refine ⟨?_, ?_, ?_⟩
    · simp only [run, main_iteration]
      rw [ho, hdelta, gather_prior_irrelevant (regs m) (run u regs clock m).store initState]
      simp [frameAt, List.range_succ]
    · simp [run, main_iteration, cycleEnd]
    · simp only [run, main_iteration]
      rw [hs]
      simp [sleepAt, cycleStart, cycleEnd, List.range_succ]


/-! ## Claim theorems -/

/-- C5: for every pair of raw bytes answered by the device, the two-register
12-bit reassembly returns `(high <<< 4) ||| (low &&& 0xF)`; in particular
high byte 0x12 with low byte 0x3F reassembles to 303. -/
theorem read_multi_value_reassembly (regs : Nat → Nat) (ha la : Nat)
    (hh : regs ha < 256) (hl : regs la < 256) :
    read_multi_value regs ha la = (regs ha <<< 4) ||| (regs la &&& 0xF)
    ∧ read_multi_value (fun a => if a = 0x5E then 0x12 else 0x3F) 0x5E 0x5F = 303 := by
  constructor
  · unfold read_multi_value read_register_value
    rw [Nat.mod_eq_of_lt hh, Nat.mod_eq_of_lt hl]
    apply Nat.mod_eq_of_lt
    have h1 : regs ha <<< 4 < 4096 := by rw [Nat.shiftLeft_eq]; omega
    have h2 : regs la &&& 0xF < 4096 :=
      lt_of_le_of_lt Nat.and_le_right (by norm_num)
    have := Nat.or_lt_two_pow (n := 12) h1 h2
    omega
  · decide

/-- Witness for `read_multi_value_reassembly` at the concrete bytes of the
claim. -/
theorem read_multi_value_reassembly_witness :
    read_multi_value (fun a => if a = 0x5E then 0x12 else 0x3F) 0x5E 0x5F
      = (0x12 <<< 4) ||| (0x3F &&& 0xF) :=
  (read_multi_value_reassembly (fun a => if a = 0x5E then 0x12 else 0x3F) 0x5E 0x5F
    (by decide) (by decide)).1

/-- C6: when bit 0x80 of the charge-control register 0x33 is set, the
charge-limit sample is `(low nibble) * 100 + 300` and the termination-limit
sample is `charge-limit / 10`, increased by half of itself (integer
arithmetic) exactly when bit 0x10 is also set; register value 0x8F yields
charge-limit 1800 with termination-limit 180, and 0x9F (bit 0x10 also set)
yields termination-limit 270. -/
theorem charge_limits_derivation (regs : Nat → Nat) (prior : State)
    (h : (regs 0x33 % 256) &&& 0x80 ≠ 0) :
    getSample (gather_chart_data regs prior) chargelimit
      = some (value_t.asUint16 (((regs 0x33 % 256) &&& 0xF) * 100 + 300))
    ∧ getSample (gather_chart_data regs prior) chargeterm
      = some (value_t.asUint16
          (if (regs 0x33 % 256) &&& 0x10 ≠ 0 then
            (((regs 0x33 % 256) &&& 0xF) * 100 + 300) / 10
              + ((((regs 0x33 % 256) &&& 0xF) * 100 + 300) / 10) / 2
          else (((regs 0x33 % 256) &&& 0xF) * 100 + 300) / 10))
    ∧ getSample (gather_chart_data regsC6 initState) chargelimit
      = some (value_t.asUint16 1800)
    ∧ getSample (gather_chart_data regsC6 initState) chargeterm
      = some (value_t.asUint16 180)
    ∧ getSample (gather_chart_data regsC6b initState) chargeterm
      = some (value_t.asUint16 270) := by
  have h15 : (regs 0x33 % 256) &&& 0xF ≤ 0xF := Nat.and_le_right
  have hlt : (((regs 0x33 % 256) &&& 0xF) * 100 + 300) < 65536 := by omega
  have hlt2 : (((regs 0x33 % 256) &&& 0xF) * 100 + 300) / 10
      + ((((regs 0x33 % 256) &&& 0xF) * 100 + 300) / 10) / 2 < 65536 := by omega
  have hlt3 : (((regs 0x33 % 256) &&& 0xF) * 100 + 300) / 10 < 65536 := by omega
  refine ⟨?_, ?_, by decide, by decide, by decide⟩ <;>
  · simp [gather_chart_data, read_register_value, getSample_ite,
      getSample_save_data_float, getSample_save_data_uint8, getSample_save_data_uint16,
      getSample_zero_mask, Nat.shiftRight_one, h, Nat.mod_eq_of_lt hlt,
      Nat.mod_eq_of_lt hlt2, Nat.mod_eq_of_lt hlt3]
    try (split_ifs <;> omega)

/-- Witness for `charge_limits_derivation` at charge-control byte 0x9F. -/
theorem charge_limits_derivation_witness :
    getSample (gather_chart_data regsC6b initState) chargelimit
      = some (value_t.asUint16 1800) :=
  (charge_limits_derivation regsC6b initState (by decide)).1

/-- C7: the bus-current-limit sample is valid exactly when the low 2-bit
field of register 0x30 is 0, 1 or 2, with values 900, 500 and 100; field
value 3 leaves the sample invalid. -/
theorem vbus_current_limit_selection (regs : Nat → Nat) (prior : State) :
    ((regs 0x30 % 256) &&& 0x3 = 0 →
      getSample (gather_chart_data regs prior) vbuscurrentlimit
        = some (value_t.asUint16 900))
    ∧ ((regs 0x30 % 256) &&& 0x3 = 1 →
      getSample (gather_chart_data regs prior) vbuscurrentlimit
        = some (value_t.asUint16 500))
    ∧ ((regs 0x30 % 256) &&& 0x3 = 2 →
      getSample (gather_chart_data regs prior) vbuscurrentlimit
        = some (value_t.asUint16 100))
    ∧ ((regs 0x30 % 256) &&& 0x3 = 3 →
      getSample (gather_chart_data regs prior) vbuscurrentlimit = none) := by
  refine ⟨fun h => ?_, fun h => ?_, fun h => ?_, fun h => ?_⟩ <;>
  · simp [gather_chart_data, read_register_value, getSample_ite,
      getSample_save_data_float, getSample_save_data_uint8, getSample_save_data_uint16,
      getSample_zero_mask, h]

/-- Witness for `vbus_current_limit_selection` with field value 1. -/
theorem vbus_current_limit_selection_witness :
    getSample (gather_chart_data (fun _ => 1) initState) vbuscurrentlimit
      = some (value_t.asUint16 500) :=
  (vbus_current_limit_selection (fun _ => 1) initState).2.1 (by decide)

/-- C8: the sample store is fully reset at the start of every decode cycle
(the result of `gather_chart_data` does not depend on the prior cycle state
in any way), and every quantity whose validity bit is unset renders as the
empty string. -/
theorem samples_reset_and_empty_render :
    (∀ (regs : Nat → Nat) (p1 p2 : State),
      gather_chart_data regs p1 = gather_chart_data regs p2)
    ∧ (∀ (i : Nat) (s : State),
      s.gIsValid &&& (1 <<< i) = 0 → format_data_value i s = some "") := by
  refine ⟨fun regs p1 p2 => rfl, fun i s h => ?_⟩
  rw [format_data_value, if_pos h]

/-- Witness for `samples_reset_and_empty_render`: in the zero-initialised
store every quantity renders empty. -/
theorem samples_reset_and_empty_render_witness :
    format_data_value batcharge initState = some "" :=
  samples_reset_and_empty_render.2 batcharge initState (by decide)

/-- C10: the internal-temperature sample is saved unconditionally (for every
register snapshot), so it is valid with the decoded temperature value, its
rendering is a nonempty string, and every frame contains that SET line. -/
theorem internaltemp_always_valid (regs : Nat → Nat) (prior : State) :
    getSample (gather_chart_data regs prior) internaltemp
      = some (value_t.asFloat
          ((read_multi_value regs 0x5E 0x5F : ℚ) * (18 / 100) - 22846 / 100))
    ∧ ∃ str, format_data_value internaltemp (gather_chart_data regs prior) = some str
        ∧ str ≠ ""
        ∧ ∀ d, Line.SET "internaltemp" (some str)
            ∈ print_chart_data d (gather_chart_data regs prior) := by
  have h1 : getSample (gather_chart_data regs prior) internaltemp
      = some (value_t.asFloat
          ((read_multi_value regs 0x5E 0x5F : ℚ) * (18 / 100) - 22846 / 100)) := by
    simp [gather_chart_data, getSample_ite, getSample_save_data_float,
      getSample_save_data_uint8, getSample_save_data_uint16, getSample_zero_mask]
  have hbit : ¬((gather_chart_data regs prior).gIsValid &&& (1 <<< internaltemp) = 0) := by
    intro hb
    rw [getSample, if_pos hb] at h1
    exact Option.noConfusion h1
  have hdata : (gather_chart_data regs prior).gData internaltemp
      = value_t.asFloat
          ((read_multi_value regs 0x5E 0x5F : ℚ) * (18 / 100) - 22846 / 100) := by
    rw [getSample, if_neg hbit] at h1
    exact Option.some.inj h1
  have hfmt : format_data_value internaltemp (gather_chart_data regs prior)
      = some (formatFixed 1
          ((read_multi_value regs 0x5E 0x5F : ℚ) * (18 / 100) - 22846 / 100)) := by
    rw [format_data_value, if_neg hbit, hdata]
    rfl
  refine ⟨h1, formatFixed 1 _, hfmt, formatFixed_ne_empty 1 _ (by decide), fun d => ?_⟩
  rw [← hfmt]
  exact set_internaltemp_mem d (gather_chart_data regs prior)

/-- C1 (code bug): with bit 0x40 of register 0x30 set (snapshot `regsC1`,
5-bit field 8, limit 4800), the bus-voltage-limit sample is marked valid
with the value `(field) * 100 + 4000` — but it is stored through
`save_data_float` although the dimension table declares `Uint16`, so
`format_data_value` reads a union member that was never stored (modelled as
`none`) instead of rendering the decimal value 4800. -/
theorem vbusvoltagelimit_stored_as_float_not_uint16 :
    getSample (gather_chart_data regsC1 initState) vbusvoltagelimit
      = some (value_t.asFloat 4800)
    ∧ (gDimensionDefinitions.getD vbusvoltagelimit dimDefault).DataType = DataType.Uint16
    ∧ format_data_value vbusvoltagelimit (gather_chart_data regsC1 initState) = none :=
  ⟨by decide, by decide, by decide⟩

/-- C9: in every execution the output after `n` cycles is the preamble
followed by exactly `n` frames — so the preamble is emitted exactly once,
strictly before any frame, and never again (no frame line is a CHART or
DIMENSION line) — and both the preamble and every frame list their charts
and member dimensions in the fixed catalog declaration order. -/
theorem preamble_once_and_catalog_order (u : Nat) (regs : Nat → Nat → Nat)
    (clock : Nat → Nat) (n : Nat) :
    (∃ frames : List (List Line),
      (run u regs clock n).output = print_charts_preamble ++ frames.join
      ∧ frames.length = n
      ∧ (∀ f ∈ frames, f.map lineHead = catalogFrameShape)
      ∧ (∀ f ∈ frames, ∀ l ∈ f, (lineHead l).1 ≠ "CHART" ∧ (lineHead l).1 ≠ "DIMENSION"))
    ∧ print_charts_preamble.map lineHead = catalogPreambleShape := by
  have hshape : ∀ f ∈ (List.range n).map (frameAt regs clock),
      f.map lineHead = catalogFrameShape := by
    intro f hf
    obtain ⟨i, _, rfl⟩ := List.mem_map.mp hf
    exact print_chart_data_shape _ _
  refine ⟨⟨(List.range n).map (frameAt regs clock), (run_spec u regs clock n).1,
    by simp, hshape, ?_⟩, print_charts_preamble_shape⟩
  intro f hf l hl
  have hmem : lineHead l ∈ catalogFrameShape := by
    rw [← hshape f hf]
    exact List.mem_map_of_mem lineHead hl
  have hall : ∀ p ∈ catalogFrameShape, p.1 ≠ "CHART" ∧ p.1 ≠ "DIMENSION" := by decide
  exact hall _ hmem

/-- C3 counterexample: with cycle 0 spanning timestamps 100..150 and cycle 1
spanning 200..260, the second frame's BEGIN lines carry the hint 50 (current
cycle start minus previous cycle end), while the delta between the two
successive cycle-end timestamps is 260 - 150 = 110 ≠ 50. -/
theorem elapsed_hint_counterexample :
    beginDelays ((run 1 regsZero clockC3 2).output)
      = List.replicate 8 none ++ List.replicate 8 (some 50)
    ∧ clockC3 3 - clockC3 1 = 110
    ∧ (some 50 : Option Nat) ≠ some 110 :=
  ⟨by decide, by decide, by decide⟩

/-- C3 as amended: the first frame's BEGIN lines carry no elapsed-time hint,
and on every later frame the hint equals the wall-clock delta between the
previous cycle END timestamp and the current cycle START timestamp (and is
omitted entirely when that delta is zero), for every positive, monotone
clock bounded below 2^64. -/
theorem elapsed_hint_start_minus_prev_end (u : Nat) (regs : Nat → Nat → Nat)
    (clock : Nat → Nat) (n : Nat)
    (hbound : ∀ k, clock k < 18446744073709551616)
    (hpos : ∀ k, 0 < clock k)
    (hmono : ∀ k, clock k ≤ clock (k + 1)) :
    (run u regs clock n).output
      = print_charts_preamble ++ ((List.range n).map (frameAt regs clock)).join
    ∧ beginDelays (frameAt regs clock 0) = List.replicate 8 none
    ∧ ∀ i, 1 ≤ i →
        beginDelays (frameAt regs clock i)
          = List.replicate 8
              (if clock (2 * i) - clock (2 * i - 1) = 0 then none
               else some (clock (2 * i) - clock (2 * i - 1))) := by
  refine ⟨(run_spec u regs clock n).1, by rfl, fun i hi => ?_⟩
  have h2i : 2 * (i - 1) + 1 = 2 * i - 1 := by omega
  have hend : cycleEnd clock (i - 1) = clock (2 * i - 1) := by
    rw [cycleEnd, h2i]
    exact Nat.mod_eq_of_lt (hbound _)
  have hstart : cycleStart clock i = clock (2 * i) := by
    rw [cycleStart]
    exact Nat.mod_eq_of_lt (hbound _)
  have hle : clock (2 * i - 1) ≤ clock (2 * i) := by
    have := hmono (2 * i - 1)
    have h1 : 2 * i - 1 + 1 = 2 * i := by omega
    rwa [h1] at this
  have hsub : u64sub (cycleStart clock i) (clock (2 * i - 1))
      = clock (2 * i) - clock (2 * i - 1) := by
    rw [hstart, u64sub,
      Nat.mod_eq_of_lt (hbound (2 * i)), Nat.mod_eq_of_lt (hbound (2 * i - 1))]
    have hb := hbound (2 * i)
    omega
  have hi0 : i ≠ 0 := by omega
  rw [frameAt, hintAt, if_neg hi0, hend, if_neg (Nat.pos_iff_ne_zero.mp (hpos _)),
    hsub, beginDelays_print_chart_data]
  by_cases hz : clock (2 * i) - clock (2 * i - 1) = 0
  · simp [hz]
  · simp [hz]

/-- Witness for `elapsed_hint_start_minus_prev_end` on the concrete clock
`clockW`: the hint of frame 1 is `clockW 2 - clockW 1 = 1`. -/
theorem elapsed_hint_start_minus_prev_end_witness :
    beginDelays (frameAt regsZero clockW 1) = List.replicate 8 (some 1) := by
  have h := (elapsed_hint_start_minus_prev_end 1 regsZero clockW 2
    (fun k => by unfold clockW; omega)
    (fun k => by unfold clockW; omega)
    (fun k => by unfold clockW; omega)).2.2 1 (le_refl 1)
  exact h.trans (by decide)

/-- C2 (code bug): with interval 1 s and a first cycle whose processing
duration is 1000001 µs (clock trace `clockC2`: start 5, end 1000006), the
end-of-cycle sleep argument `gUpdateEvery * 1000000L - delta` is computed in
`uint64_t` arithmetic and underflows to 2^64 - 1 instead of being floored
at zero. -/
theorem sleep_argument_underflows :
    (run 1 regsZero clockC2 1).sleeps = [18446744073709551615]
    ∧ 1 * 1000000 < u64sub (clockC2 1) (clockC2 0)
    ∧ (18446744073709551615 : Nat) ≠ 0 :=
  ⟨by decide, by decide, by decide⟩

/-- C4 counterexample: the argument "65537" is numeric but far outside
[1,360]; `atoi` yields 65537, the narrowing to the `uint16_t` variable
`gUpdateEvery` truncates it to 1, the range check passes, and the program
proceeds (with interval 1) instead of printing the usage message and
exiting 1. -/
theorem cli_out_of_range_accepted_counterexample :
    atoi "65537" = 65537
    ∧ ¬(1 ≤ (65537 : Nat) ∧ (65537 : Nat) ≤ 360)
    ∧ parse_args ["65537"] = some 1
    ∧ main_run ["65537"] regsZero clockC2 0 = some init_loop_state :=
  ⟨by decide, by decide, by decide, rfl⟩

set_option maxRecDepth 8000 in
/-- C4 as amended: with no argument the interval is 1; every decimal integer
in [1,360] is accepted as the interval; every argument whose `atoi` value is
0 (in particular every fully non-numeric argument) is rejected with the
usage error; and in general the usage error is taken exactly when the `atoi`
value truncated to `uint16_t` falls outside [1,360] — so out-of-range
arguments whose truncation lands in [1,360], such as "65537", are accepted. -/
theorem cli_parse_amended :
    parse_args [] = some 1
    ∧ (∀ n, n ≤ 360 → 1 ≤ n → parse_args [toString n] = some n)
    ∧ (∀ s, atoi s = 0 → parse_args [s] = none)
    ∧ (∀ s, parse_args [s] = none ↔
        (((atoi s).emod 65536).toNat < 1 ∨ ((atoi s).emod 65536).toNat > 360)) := by
  refine ⟨rfl, by decide, ?_, ?_⟩
  · intro s h
    have h0 : Int.emod 0 65536 = 0 := rfl
    simp [parse_args, h, h0]
  · intro s
    simp only [parse_args]
    by_cases h1 : ((atoi s).emod 65536).toNat < 1
    · simp [h1]
    · by_cases h2 : ((atoi s).emod 65536).toNat > 360
      · simp [h1, h2]
      · simp [h1, h2]

/-- Witness for `cli_parse_amended` at the accepted argument "5" and the
rejected argument "quux". -/
theorem cli_parse_amended_witness :
    parse_args [toString 5] = some 5 ∧ parse_args ["quux"] = none :=
  ⟨cli_parse_amended.2.1 5 (by decide) (by decide),
   cli_parse_amended.2.2.1 "quux" (by decide)⟩

/-- Witness for `preamble_once_and_catalog_order` at a concrete execution. -/
theorem preamble_once_and_catalog_order_witness :
    print_charts_preamble.map lineHead = catalogPreambleShape :=
  (preamble_once_and_catalog_order 1 regsZero clockC3 2).2

/-- Witness for `internaltemp_always_valid` at the all-zero snapshot. -/
theorem internaltemp_always_valid_witness :
    getSample (gather_chart_data (fun _ => 0) initState) internaltemp
      = some (value_t.asFloat
          ((read_multi_value (fun _ => 0) 0x5E 0x5F : ℚ) * (18 / 100) - 22846 / 100)) :=
  (internaltemp_always_valid (fun _ => 0) initState).1
